import Mathlib

/-
  Verification of the argument-analyzer pipeline against its specification.

  Shallow embedding of the Python sources:
    - preprocessing.py            (fallback segmentation / tokenization)
    - claim_detection.py          (marker-based role detection)
    - emotion_analysis.py         (sentiment / emotionality scoring)
    - argument_classification.py  (strength fusion, weakness detection)
    - structure_builder.py        (argument forest and statistics)

  Sentence text is modelled as `List Char`; Python floats are modelled as
  exact rationals `ℚ` (both the spec formulas and the code agree on the
  literal arithmetic expressions, so exact arithmetic is the faithful
  common semantics).  Python object references in the structure builder
  are modelled by the unique node ids (the builder assigns `id = index`).
-/

namespace ArgAnalyzer

/- The Batteries rational operations are `@[irreducible]` by default, which
blocks `decide` on concrete rational arithmetic; restore the ordinary
unfolding behaviour (the kernel unfolds them either way). -/
attribute [local semireducible] Rat.ofScientific Rat.add Rat.mul Rat.inv Rat.sub

abbrev Str := List Char

/-- Python `text.lower()` (per character). -/
def toLowerStr (s : Str) : Str := s.map Char.toLower

/-- Python `needle in hay` for strings: substring containment. -/
def hasSubstr (needle : Str) : Str → Bool
  | [] => needle.isEmpty
  | c :: rest => needle.isPrefixOf (c :: rest) || hasSubstr needle rest

/-- Python `hay.count(needle)` (non-overlapping occurrences, greedy left-to-right). -/
def pyCount (needle : Str) (hay : Str) : Nat :=
  if h : needle = [] then hay.length + 1 else go hay
where
  go : Str → Nat
    | [] => 0
    | c :: rest =>
      if needle.isPrefixOf (c :: rest) then
        1 + go (List.drop (needle.length - 1) rest)
      else go rest
  termination_by l => l.length
  decreasing_by
    · simp only [List.length_cons]
      have := List.length_drop (needle.length - 1) rest
      omega
    · simp only [List.length_cons]
      omega

/-- Number of character positions at which `needle` starts inside `hay`
(used to talk about repeated occurrences of a lexicon word). -/
def occurrences (needle : Str) (hay : Str) : Nat :=
  (List.range (hay.length + 1)).countP (fun i => needle.isPrefixOf (hay.drop i))

/-! ## emotion_analysis.py -/

/-- `EmotionResult` dataclass. -/
structure EmotionResult where
  sentence_text : Str
  sentiment : String
  sentiment_score : ℚ
  emotionality : ℚ
  emotion_keywords : List Str
deriving DecidableEq, Repr

/-- `EmotionAnalyzer.POSITIVE_WORDS` (a Python dict; the duplicate literal
key "wonderful" collapses to a single entry at its first position). -/
def POSITIVE_WORDS : List (Str × ℚ) :=
  [("good".data, 0.7), ("great".data, 0.9), ("excellent".data, 0.95),
   ("wonderful".data, 0.9), ("amazing".data, 0.95), ("fantastic".data, 0.95),
   ("beautiful".data, 0.8), ("love".data, 0.85), ("brilliant".data, 0.9),
   ("perfect".data, 0.9), ("awesome".data, 0.9), ("positive".data, 0.8),
   ("benefit".data, 0.75), ("success".data, 0.8), ("help".data, 0.7),
   ("support".data, 0.75), ("agree".data, 0.6), ("right".data, 0.6),
   ("true".data, 0.65), ("best".data, 0.85), ("better".data, 0.75),
   ("improve".data, 0.8)]

/-- `EmotionAnalyzer.NEGATIVE_WORDS`. -/
def NEGATIVE_WORDS : List (Str × ℚ) :=
  [("bad".data, 0.7), ("terrible".data, 0.95), ("awful".data, 0.95),
   ("horrible".data, 0.95), ("hate".data, 0.95), ("dislike".data, 0.8),
   ("wrong".data, 0.75), ("evil".data, 0.95), ("stupid".data, 0.9),
   ("idiots".data, 0.95), ("idiotic".data, 0.95), ("ridiculous".data, 0.85),
   ("absurd".data, 0.85), ("nonsense".data, 0.85), ("lies".data, 0.9),
   ("failure".data, 0.8), ("problem".data, 0.6), ("issue".data, 0.5),
   ("danger".data, 0.75), ("dangerous".data, 0.85), ("threat".data, 0.8),
   ("destroy".data, 0.85), ("crisis".data, 0.8), ("disaster".data, 0.9),
   ("blame".data, 0.7), ("fault".data, 0.7), ("worst".data, 0.9),
   ("worse".data, 0.8), ("negative".data, 0.7), ("disagree".data, 0.6),
   ("false".data, 0.75), ("incorrect".data, 0.7)]

/-- `EmotionAnalyzer.INTENSITY_MARKERS`. -/
def INTENSITY_MARKERS : List (Str × ℚ) :=
  [("very".data, 1.2), ("extremely".data, 1.3), ("incredibly".data, 1.3),
   ("absolutely".data, 1.3), ("definitely".data, 1.2), ("obviously".data, 1.1),
   ("clearly".data, 1.1), ("utterly".data, 1.3), ("completely".data, 1.2),
   ("totally".data, 1.2), ("really".data, 1.15), ("so".data, 1.15)]

/-- The entries of a lexicon that match the (already lower-cased) text by
substring containment, in lexicon order. -/
def matchedPairs (lex : List (Str × ℚ)) (tl : Str) : List (Str × ℚ) :=
  lex.filter (fun p => hasSubstr p.1 tl)

/-- Loop over `INTENSITY_MARKERS` keeping the maximum matched multiplier
(starting from 1.0). -/
def intensityMultiplier (tl : Str) : ℚ :=
  INTENSITY_MARKERS.foldl
    (fun m p => if hasSubstr p.1 tl then max m p.2 else m) 1

/-- The accumulation loop over one word lexicon: adds
`weight * intensity_multiplier` and records the keyword for every matched
word. -/
def scanLexicon (lex : List (Str × ℚ)) (tl : Str) (mult : ℚ) : ℚ × List Str :=
  lex.foldl
    (fun acc p =>
      if hasSubstr p.1 tl then (acc.1 + p.2 * mult, acc.2 ++ [p.1]) else acc)
    (0, [])

/-- Python `list(set(xs))`, modelled as keeping the first occurrence of
each element (CPython fixes no order; no claim depends on the order). -/
def dedupFirst (l : List Str) : List Str :=
  l.foldl (fun acc x => if x ∈ acc then acc else acc ++ [x]) []

/-- Fraction of upper-case characters, `0` for empty text. -/
def upperFrac (text : Str) : ℚ :=
  if text.length = 0 then 0
  else ((text.countP Char.isUpper : ℚ)) / (text.length : ℚ)

/-- The final value of `positive_score` in `EmotionAnalyzer._analyze_sentence`. -/
def positiveTotal (text : Str) : ℚ :=
  let tl := toLowerStr text
  let mult := intensityMultiplier tl
  (scanLexicon POSITIVE_WORDS tl mult).1
    + (if upperFrac text > 0.3 then 0.3 * mult else 0)
    + 0.2 * (text.count '!' : ℚ)

/-- The final value of `negative_score` in `EmotionAnalyzer._analyze_sentence`. -/
def negativeTotal (text : Str) : ℚ :=
  let tl := toLowerStr text
  let mult := intensityMultiplier tl
  (scanLexicon NEGATIVE_WORDS tl mult).1
    + (if upperFrac text > 0.3 then 0.3 * mult else 0)
    + 0.15 * (text.count '!' : ℚ)

/-- `EmotionAnalyzer._analyze_sentence`. -/
def analyzeSentenceEmotion (text : Str) : EmotionResult :=
  let tl := toLowerStr text
  let mult := intensityMultiplier tl
  let kws0 := (scanLexicon POSITIVE_WORDS tl mult).2
      ++ (scanLexicon NEGATIVE_WORDS tl mult).2
  let kws1 := kws0 ++ (if upperFrac text > 0.3 then ["CAPS_LOCK".data] else [])
  let exclam := text.count '!'
  let kws2 := kws1 ++
      (if exclam > 0 then [("!x".data ++ (toString exclam).data)] else [])
  let p := positiveTotal text
  let n := negativeTotal text
  let score : ℚ := if p + n = 0 then 0 else (p - n) / (p + n)
  let sentiment : String :=
    if score > 0.1 then "positive"
    else if score < -0.1 then "negative"
    else "neutral"
  { sentence_text := text
    sentiment := sentiment
    sentiment_score := score
    emotionality := min 1 ((p + n) / 5)
    emotion_keywords := dedupFirst kws2 }

/-! ## claim_detection.py -/

/-- `ClaimResult` dataclass. -/
structure ClaimResult where
  sentence_text : Str
  confidence : ℚ
  markers : List Str
  claim_type : String
deriving DecidableEq, Repr

/-- `ClaimDetector.CLAIM_MARKERS`. -/
def CLAIM_MARKERS : List (Str × ℚ) :=
  [("therefore".data, 0.9), ("thus".data, 0.9), ("hence".data, 0.9),
   ("so".data, 0.7), ("conclude".data, 0.95), ("conclusion".data, 0.95),
   ("in conclusion".data, 0.95), ("it is clear that".data, 0.9),
   ("this shows that".data, 0.85), ("this demonstrates".data, 0.85),
   ("this proves".data, 0.9), ("it follows that".data, 0.85)]

/-- `ClaimDetector.SUPPORT_MARKERS`. -/
def SUPPORT_MARKERS : List (Str × ℚ) :=
  [("because".data, 0.85), ("since".data, 0.8), ("as".data, 0.6),
   ("due to".data, 0.85), ("caused by".data, 0.85), ("for example".data, 0.75),
   ("for instance".data, 0.75), ("such as".data, 0.75), ("like".data, 0.6),
   ("in fact".data, 0.7), ("indeed".data, 0.7), ("furthermore".data, 0.75),
   ("moreover".data, 0.75), ("additionally".data, 0.75), ("also".data, 0.65),
   ("this supports".data, 0.9), ("this proves".data, 0.85),
   ("this shows".data, 0.85), ("evidence".data, 0.8),
   ("research shows".data, 0.85), ("studies show".data, 0.85)]

/-- `ClaimDetector.COUNTER_MARKERS`. -/
def COUNTER_MARKERS : List (Str × ℚ) :=
  [("however".data, 0.8), ("but".data, 0.85), ("yet".data, 0.85),
   ("although".data, 0.85), ("though".data, 0.8), ("despite".data, 0.85),
   ("in spite of".data, 0.85), ("on the other hand".data, 0.9),
   ("conversely".data, 0.9), ("by contrast".data, 0.9), ("instead".data, 0.85),
   ("rather".data, 0.75), ("some people argue".data, 0.85),
   ("others claim".data, 0.85), ("critics say".data, 0.9),
   ("opponents argue".data, 0.9), ("this contradicts".data, 0.9),
   ("disagree".data, 0.85), ("counter-argument".data, 0.95)]

/-- `ClaimDetector.MODAL_VERBS`. -/
def MODAL_VERBS : List (Str × ℚ) :=
  [("should".data, 0.8), ("must".data, 0.8), ("ought".data, 0.8),
   ("may".data, 0.6), ("might".data, 0.6), ("could".data, 0.6),
   ("would".data, 0.6), ("need to".data, 0.75), ("have to".data, 0.7)]

/-- `ClaimDetector.BELIEF_MARKERS`. -/
def BELIEF_MARKERS : List (Str × ℚ) :=
  [("i believe".data, 0.85), ("i think".data, 0.8), ("in my opinion".data, 0.9),
   ("my view".data, 0.9), ("i argue".data, 0.9), ("it seems".data, 0.7),
   ("it appears".data, 0.7), ("arguably".data, 0.85), ("certainly".data, 0.75),
   ("clearly".data, 0.75), ("obviously".data, 0.75)]

/-- `self.all_markers["CLAIM"]`: the dict merge
`{**CLAIM_MARKERS, **MODAL_VERBS, **BELIEF_MARKERS}` (the three dicts have
pairwise distinct keys, so the merge is plain concatenation in insertion
order). -/
def claimLexicon : List (Str × ℚ) := CLAIM_MARKERS ++ MODAL_VERBS ++ BELIEF_MARKERS

/-- Arithmetic mean of the matched weights of a lexicon, `0` if nothing
matched (used for the spec-side reading of the selection loop). -/
def lexMean (lex : List (Str × ℚ)) (tl : Str) : ℚ :=
  match matchedPairs lex tl with
  | [] => 0
  | m => (m.map (fun p => p.2)).sum / (m.length : ℚ)

/-- `ClaimDetector._analyze_sentence`: collect per-type matched scores and
markers, then keep the type of strictly highest average in iteration order
CLAIM, SUPPORT, COUNTER, NEUTRAL (NEUTRAL carries the default score list
`[0.0]`; its marker entry is never read by the Python code because
`0.0 > confidence` never holds, so it is modelled as `[]`). -/
def analyzeSentenceClaim (text : Str) : ClaimResult :=
  let tl := toLowerStr text
  let cands : List (String × List ℚ × List Str) :=
    [("CLAIM", (matchedPairs claimLexicon tl).map (fun p => p.2),
      (matchedPairs claimLexicon tl).map (fun p => p.1)),
     ("SUPPORT", (matchedPairs SUPPORT_MARKERS tl).map (fun p => p.2),
      (matchedPairs SUPPORT_MARKERS tl).map (fun p => p.1)),
     ("COUNTER", (matchedPairs COUNTER_MARKERS tl).map (fun p => p.2),
      (matchedPairs COUNTER_MARKERS tl).map (fun p => p.1)),
     ("NEUTRAL", [0], [])]
  let best := cands.foldl
    (fun acc cand =>
      match cand.2.1 with
      | [] => acc
      | s :: ss =>
        if acc.2.1 < ((s :: ss).sum / ((s :: ss).length : ℚ)) then
          (cand.1, (s :: ss).sum / ((s :: ss).length : ℚ), cand.2.2)
        else acc)
    ("NEUTRAL", (0 : ℚ), ([] : List Str))
  { sentence_text := text
    confidence := best.2.1
    markers := best.2.2
    claim_type := best.1 }

/-- Spec-side reading of the role detector (§4.2 of the spec): compute each
lexicon's mean of matched weights (0 if no matches), label with the lexicon
of highest mean, ties in favour of the first in the order CLAIM, SUPPORT,
COUNTER; NEUTRAL with confidence 0 and no markers when nothing matches. -/
def analyzeSentenceClaimSpec (text : Str) : ClaimResult :=
  let tl := toLowerStr text
  let mC := lexMean claimLexicon tl
  let mS := lexMean SUPPORT_MARKERS tl
  let mCo := lexMean COUNTER_MARKERS tl
  if matchedPairs claimLexicon tl = [] ∧ matchedPairs SUPPORT_MARKERS tl = []
      ∧ matchedPairs COUNTER_MARKERS tl = [] then
    { sentence_text := text, confidence := 0, markers := [], claim_type := "NEUTRAL" }
  else if mS ≤ mC ∧ mCo ≤ mC then
    { sentence_text := text, confidence := mC,
      markers := (matchedPairs claimLexicon tl).map (fun p => p.1),
      claim_type := "CLAIM" }
  else if mCo ≤ mS then
    { sentence_text := text, confidence := mS,
      markers := (matchedPairs SUPPORT_MARKERS tl).map (fun p => p.1),
      claim_type := "SUPPORT" }
  else
    { sentence_text := text, confidence := mCo,
      markers := (matchedPairs COUNTER_MARKERS tl).map (fun p => p.1),
      claim_type := "COUNTER" }

/-! ## preprocessing.py (fallback mode, i.e. spaCy unavailable) -/

/-- `Token` dataclass. -/
structure Token where
  text : Str
  pos : String
  lemma_ : Str
  dep : String
deriving DecidableEq, Repr

/-- `Sentence` dataclass. -/
structure Sentence where
  text : Str
  tokens : List Token
  doc_id : Nat
deriving DecidableEq, Repr

/-- Terminal sentence punctuation of the fallback pattern `[^.!?]*[.!?]`. -/
def isTerminal (c : Char) : Bool := c = '.' || c = '!' || c = '?'

/-- `re.findall(r'[^.!?]*[.!?]', text)`: each match runs up to and including
the next terminal character; a trailing run without terminal is not matched. -/
def findallSentences (acc : Str) : Str → List Str
  | [] => []
  | c :: rest =>
    if isTerminal c then (acc ++ [c]) :: findallSentences [] rest
    else findallSentences (acc ++ [c]) rest

/-- Python `str.strip()`. -/
def pyStrip (s : Str) : Str :=
  ((s.dropWhile Char.isWhitespace).reverse.dropWhile Char.isWhitespace).reverse

/-- A `\w` word character (modelled for ASCII input). -/
def isWordChar (c : Char) : Bool := c.isAlphanum || c = '_'

/-- `re.findall(r'\w+', s)`: maximal runs of word characters. -/
def wordRuns : Str → List Str
  | [] => []
  | c :: rest =>
    if h : isWordChar c then
      ((c :: rest).takeWhile isWordChar) :: wordRuns ((c :: rest).dropWhile isWordChar)
    else wordRuns rest
termination_by l => l.length
decreasing_by
  · simp only [List.dropWhile_cons, h, if_true, List.length_cons]
    have hle : ∀ l : List Char, (l.dropWhile isWordChar).length ≤ l.length := by
      intro l
      induction l with
      | nil => simp [List.dropWhile]
      | cons a t ih =>
        simp only [List.dropWhile_cons]
        split
        · exact Nat.le_trans ih (Nat.le_succ _)
        · simp
    have := hle rest
    omega
  · simp only [List.length_cons]
    omega

/-- `TextPreprocessor._process_with_fallback` (the `doc_id` is the index in
the raw `re.findall` list, before the empty-after-strip filter, exactly as
`enumerate` assigns it). -/
def processWithFallback (text : Str) : List Sentence :=
  (findallSentences [] text).enum.filterMap (fun p =>
    let st := pyStrip p.2
    if st = [] then none
    else some
      { text := st
        tokens := (wordRuns (toLowerStr st)).map
          (fun w => { text := w, pos := "UNKNOWN", lemma_ := w, dep := "UNKNOWN" })
        doc_id := p.1 })

/-! ## argument_classification.py -/

/-- `ArgumentClassification` dataclass. -/
structure ArgumentClassification where
  sentence_text : Str
  argument_type : String
  confidence : ℚ
  sentiment : String
  emotionality : ℚ
  keywords : List Str
  strength : ℚ
deriving DecidableEq, Repr

/-- The unclamped combination inside
`ArgumentClassifier._calculate_argument_strength`. -/
def rawStrength (cr : ClaimResult) (er : EmotionResult) : ℚ :=
  let confidence_factor := cr.confidence
  let emotionality_factor := max 0.5 (1 - |er.emotionality - 0.3|)
  let sentiment_neutral_bonus : ℚ :=
    if cr.claim_type = "COUNTER" then
      if er.sentiment = "negative" then 0.2 else -0.1
    else
      if er.sentiment = "positive" ∨ er.sentiment = "neutral" then 0.2 else -0.1
  confidence_factor * 0.5 + emotionality_factor * 0.3
    + (0.5 + sentiment_neutral_bonus) * 0.2

/-- `ArgumentClassifier._calculate_argument_strength` (with the final
`min(1.0, max(0.0, strength))`). -/
def calculateArgumentStrength (cr : ClaimResult) (er : EmotionResult) : ℚ :=
  min 1 (max 0 (rawStrength cr er))

/-- Spec-side reading of the strength formula (§4.4 of the spec /
the wording of the claim):
`clamp(conf*0.5 + max(0.5, 1 - |emo - 0.3|)*0.3 + (0.5 + bonus)*0.2, 0, 1)`
with the four sentiment-bonus cases spelled out. -/
def strengthSpec (cr : ClaimResult) (er : EmotionResult) : ℚ :=
  let bonus : ℚ :=
    if cr.claim_type = "COUNTER" ∧ er.sentiment = "negative" then 0.2
    else if cr.claim_type = "COUNTER" then -0.1
    else if er.sentiment = "positive" ∨ er.sentiment = "neutral" then 0.2
    else -0.1
  let raw := cr.confidence * 0.5 + (max 0.5 (1 - |er.emotionality - 0.3|)) * 0.3
    + (0.5 + bonus) * 0.2
  min 1 (max 0 raw)

/-- `ArgumentClassifier._combine_analyses`. -/
def combineAnalyses (cr : ClaimResult) (er : EmotionResult) : ArgumentClassification :=
  { sentence_text := cr.sentence_text
    argument_type := cr.claim_type
    confidence := cr.confidence
    sentiment := er.sentiment
    emotionality := er.emotionality
    keywords := cr.markers ++ er.emotion_keywords
    strength := calculateArgumentStrength cr er }

/-- `ClaimDetector.detect_claims`. -/
def detectClaims (sentences : List Sentence) : List ClaimResult :=
  sentences.map (fun s => analyzeSentenceClaim s.text)

/-- `EmotionAnalyzer.analyze_emotions`. -/
def analyzeEmotions (sentences : List Sentence) : List EmotionResult :=
  sentences.map (fun s => analyzeSentenceEmotion s.text)

/-- `ArgumentClassifier.classify_arguments`. -/
def classifyArguments (sentences : List Sentence) : List ArgumentClassification :=
  ((detectClaims sentences).zip (analyzeEmotions sentences)).map
    (fun p => combineAnalyses p.1 p.2)

/-! ## argument_classification.py : detect_logical_weaknesses -/

/-- One weakness-feedback dictionary. -/
structure WeaknessFinding where
  name : String
  description : String
  strengthen : String
  counter_args : List String := []
  pro_args : List String := []
deriving DecidableEq, Repr

/-- The rule-1 entry (Appeal to Emotion). -/
def appealToEmotionFinding : WeaknessFinding :=
  { name := "Appeal to Emotion"
    description := "Argument basiert stark auf emotionaler Sprache statt auf Fakten."
    strengthen := "Füge konkrete Belege oder Statistiken hinzu und reduziere den emotionalen Tonfall."
    counter_args := ["Kritiker könnten argumentieren, dass dein Beitrag eher gefühlsbetont als sachlich ist."]
    pro_args := ["Unterstütze die emotionale Aussage durch Umfragedaten oder persönliche Erfahrungen als Beispiel."] }

/-- The rule-2 entry (superlatives → Hasty Generalization). -/
def superlativeFinding : WeaknessFinding :=
  { name := "Hasty Generalization"
    description := "Verwendet übertriebene Ausdrücke und zieht zu schnelle Schlussfolgerungen."
    strengthen := "Verwende genauere Formulierungen oder nenne Ausnahmen." }

/-- The rule-3 entry (Ad Hominem). -/
def adHominemFinding : WeaknessFinding :=
  { name := "Ad Hominem"
    description := "Angriff auf die Person statt auf das Argument."
    strengthen := "Fokussiere dich auf die inhaltliche Kritik und nicht auf den Sprecher."
    counter_args := ["Andere könnten behaupten, dass du unfair diskutierst, indem du den Gegner angreifst."]
    pro_args := ["Unterstütze deine Behauptung mit nachprüfbaren Fakten anstelle von Beschimpfungen."] }

/-- The rule-4 entry (generalization words → Hasty Generalization). -/
def generalizationFinding : WeaknessFinding :=
  { name := "Hasty Generalization"
    description := "Zieht eine allgemeine Schlussfolgerung aus unzureichenden Beispielen."
    strengthen := "Gib konkrete Beispiele oder sorge für breitere Datengrundlage."
    counter_args := ["Einige könnten anmerken, dass deine Beispiele nicht repräsentativ sind."]
    pro_args := ["Ergänze weitere Belege zur Unterstützung deiner Verallgemeinerung."] }

/-- The rule-5 entry (Circular Reasoning). -/
def circularFinding : WeaknessFinding :=
  { name := "Circular Reasoning"
    description := "Das Argument benutzt seine eigene Schlussfolgerung als Prämisse."
    strengthen := "Führe unabhängige Beweise oder Argumente an, die deine Aussage stützen." }

/-- The rule-6 entry (Appeal to Belief). -/
def appealToBeliefFinding : WeaknessFinding :=
  { name := "Appeal to Belief"
    description := "Stützt sich mehr auf Glauben als auf überprüfbare Fakten."
    strengthen := "Liefern Sie empirische Daten oder Quellen anstelle einer bloßen Behauptung."
    counter_args := ["Ein Gegner könnte sagen, dass dein Glaube keine Beweise liefert."]
    pro_args := ["Füge Studien oder Expertenzitate hinzu, um die Glaubensaussage zu untermauern."] }

/-- The sentinel entry returned when no rule fires. -/
def noneFinding : WeaknessFinding :=
  { name := "None"
    description := "✅ Keine offensichtlichen Schwächen erkannt"
    strengthen := "Dein Argument erscheint logisch solide – weiter so!" }

/-- The local `add` closure: append unless an entry of the same name is
already present. -/
def addFinding (fb : List WeaknessFinding) (e : WeaknessFinding) : List WeaknessFinding :=
  if fb.any (fun f => f.name = e.name) then fb else fb ++ [e]

/-- Rule 1 condition: `classification.emotionality > 0.7`. -/
def weaknessCond1 (c : ArgumentClassification) : Bool :=
  decide ((0.7 : ℚ) < c.emotionality)

/-- Rule 2 condition: at least two superlative words present. -/
def weaknessCond2 (c : ArgumentClassification) : Bool :=
  let tl := toLowerStr c.sentence_text
  2 ≤ (["absolutely".data, "definitely".data, "certainly".data,
        "obviously".data, "clearly".data].countP (fun s => hasSubstr s tl))

/-- Rule 3 condition: an ad-hominem word present. -/
def weaknessCond3 (c : ArgumentClassification) : Bool :=
  let tl := toLowerStr c.sentence_text
  ["stupid".data, "idiot".data, "fool".data, "moron".data,
   "ignorant".data].any (fun w => hasSubstr w tl)

/-- Rule 4 condition: a generalization word present. -/
def weaknessCond4 (c : ArgumentClassification) : Bool :=
  let tl := toLowerStr c.sentence_text
  ["all".data, "never".data, "always".data, "everybody".data,
   "nobody".data].any (fun w => hasSubstr w tl)

/-- Rule 5 condition: `"is" in text_lower and text_lower.count("is") > 2`. -/
def weaknessCond5 (c : ArgumentClassification) : Bool :=
  let tl := toLowerStr c.sentence_text
  hasSubstr "is".data tl && 2 < pyCount "is".data tl

/-- Rule 6 condition: SUPPORT argument containing "believe". -/
def weaknessCond6 (c : ArgumentClassification) : Bool :=
  c.argument_type = "SUPPORT" && hasSubstr "believe".data (toLowerStr c.sentence_text)

/-- The rule cascade of `detect_logical_weaknesses`, as a function of the
six rule conditions. -/
def weaknessCore (b1 b2 b3 b4 b5 b6 : Bool) : List WeaknessFinding :=
  let fb0 : List WeaknessFinding := []
  let fb1 := if b1 then addFinding fb0 appealToEmotionFinding else fb0
  let fb2 := if b2 then addFinding fb1 superlativeFinding else fb1
  let fb3 := if b3 then addFinding fb2 adHominemFinding else fb2
  let fb4 := if b4 then addFinding fb3 generalizationFinding else fb3
  let fb5 := if b5 then addFinding fb4 circularFinding else fb4
  let fb6 := if b6 then addFinding fb5 appealToBeliefFinding else fb5
  if fb6 = [] then [noneFinding] else fb6

/-- `ArgumentClassifier.detect_logical_weaknesses`. -/
def detectLogicalWeaknesses (c : ArgumentClassification) : List WeaknessFinding :=
  weaknessCore (weaknessCond1 c) (weaknessCond2 c) (weaknessCond3 c)
    (weaknessCond4 c) (weaknessCond5 c) (weaknessCond6 c)

/-- Spec-side reading of the weakness detector (the claim's wording):
findings appended in the fixed rule order, a rule skipped when its name was
already added (which only relates rules 2 and 4), and the sentinel exactly
when no rule fires. -/
def weaknessSpec (b1 b2 b3 b4 b5 b6 : Bool) : List WeaknessFinding :=
  let l :=
    (if b1 then [appealToEmotionFinding] else [])
    ++ (if b2 then [superlativeFinding] else [])
    ++ (if b3 then [adHominemFinding] else [])
    ++ (if b4 && !b2 then [generalizationFinding] else [])
    ++ (if b5 then [circularFinding] else [])
    ++ (if b6 then [appealToBeliefFinding] else [])
  if l = [] then [noneFinding] else l

/-! ## structure_builder.py -/

/-- `ArgumentNode`; children are modelled by their node ids (the builder
assigns `id = index`, so ids are unique and stand for the Python object
references; the non-owning parent back-pointer carries no information not
already in the children lists and is not modelled). -/
structure ArgumentNode where
  id : Nat
  text : Str
  arg_type : String
  strength : ℚ
  emotionality : ℚ
  childIds : List Nat := []
deriving DecidableEq, Repr

/-- `for idx, cls in enumerate(classifications): ArgumentNode(id=idx, ...)`. -/
def mkNodes : Nat → List ArgumentClassification → List ArgumentNode
  | _, [] => []
  | i, c :: rest =>
    { id := i, text := c.sentence_text, arg_type := c.argument_type,
      strength := c.strength, emotionality := c.emotionality }
      :: mkNodes (i + 1) rest

/-- Python `max(supports, key=lambda n: n.strength)`: the first node of
maximal strength (a later node replaces the current best only when strictly
stronger). -/
def maxByStrength (n0 : ArgumentNode) (rest : List ArgumentNode) : ArgumentNode :=
  rest.foldl (fun best n => if best.strength < n.strength then n else best) n0

/-- Output of `StructureBuilder.build_structure`: the (mutated) flat node
list `self.nodes` and the root list `self.root_claims`. -/
structure BuildResult where
  nodes : List ArgumentNode
  root_claims : List ArgumentNode
deriving DecidableEq, Repr

/-- `StructureBuilder.build_structure`.  The Python loop mutates each claim
object, appending first every support and then every counter whose id is
strictly greater; modelled by rewriting each claim node (identified by id)
with its final children list. -/
def buildStructure (cls : List ArgumentClassification) : BuildResult :=
  let nodes0 := mkNodes 0 cls
  let claims0 := nodes0.filter (fun n => n.arg_type = "CLAIM")
  let supports := nodes0.filter (fun n => n.arg_type = "SUPPORT")
  let counters := nodes0.filter (fun n => n.arg_type = "COUNTER")
  let claims :=
    match claims0, supports with
    | [], s :: ss => [maxByStrength s ss]
    | _, _ => claims0
  let addChildren := fun (n : ArgumentNode) =>
    { n with childIds :=
        ((supports.filter (fun s => n.id < s.id)).map (fun s => s.id))
        ++ ((counters.filter (fun c => n.id < c.id)).map (fun c => c.id)) }
  let claimIds : List Nat := claims.map (fun n => n.id)
  { nodes := nodes0.map (fun n => if n.id ∈ claimIds then addChildren n else n)
    root_claims := claims.map addChildren }

/-- `StructureBuilder._calculate_depth`, with explicit fuel (the Python
recursion runs on the acyclic object graph; children are looked up by id). -/
def calculateDepth (nodes : List ArgumentNode) : Nat → ArgumentNode → Nat
  | 0, _ => 1
  | fuel + 1, n =>
    match n.childIds.filterMap (fun i => nodes.find? (fun m => m.id = i)) with
    | [] => 1
    | c :: cs => 1 + ((c :: cs).map (calculateDepth nodes fuel)).foldl max 0

/-- Output of `StructureBuilder.get_tree_stats`. -/
structure TreeStats where
  total_nodes : Nat
  total_claims : Nat
  total_supports : Nat
  total_counters : Nat
  avg_strength : ℚ
  max_depth : Nat
  num_root_claims : Nat
deriving DecidableEq, Repr

/-- `StructureBuilder.get_tree_stats`. -/
def getTreeStats (b : BuildResult) : TreeStats :=
  let total := b.nodes.length
  { total_nodes := total
    total_claims := b.nodes.countP (fun n => n.arg_type = "CLAIM")
    total_supports := b.nodes.countP (fun n => n.arg_type = "SUPPORT")
    total_counters := b.nodes.countP (fun n => n.arg_type = "COUNTER")
    avg_strength :=
      if 0 < total then ((b.nodes.map (fun n => n.strength)).sum) / (total : ℚ)
      else 0
    max_depth := b.root_claims.foldl
      (fun m c => max m (calculateDepth b.nodes b.nodes.length c)) 0
    num_root_claims := b.root_claims.length }

/-- A COUNTER-typed classification used to exercise the structure builder
on input without claims and supports. -/
def counterOnlyClassification : ArgumentClassification :=
  { sentence_text := "However, critics say this fails.".data
    argument_type := "COUNTER"
    confidence := 1/2
    sentiment := "neutral"
    emotionality := 1/5
    keywords := []
    strength := 3/5 }

/-! ## Helper lemmas -/

theorem scanLexicon_fst (lex : List (Str × ℚ)) (tl : Str) (mult : ℚ) :
    (scanLexicon lex tl mult).1
      = ((matchedPairs lex tl).map (fun p => p.2 * mult)).sum := by
  have key : ∀ (l : List (Str × ℚ)) (a : ℚ) (ks : List Str),
      (l.foldl (fun acc p =>
        if hasSubstr p.1 tl then (acc.1 + p.2 * mult, acc.2 ++ [p.1]) else acc)
        (a, ks)).1
      = a + ((l.filter (fun p => hasSubstr p.1 tl)).map (fun p => p.2 * mult)).sum := by
    intro l
    induction l with
    | nil => intro a ks; simp
    | cons p rest ih =>
      intro a ks
      by_cases hp : hasSubstr p.1 tl
      · simp only [List.foldl_cons, List.filter_cons, hp, if_true, ih,
          List.map_cons, List.sum_cons]
        ring
      · simp only [List.foldl_cons, List.filter_cons, hp, if_false, ih,
          Bool.false_eq_true]
  simpa [scanLexicon, matchedPairs] using key lex 0 []

theorem scanLexicon_snd (lex : List (Str × ℚ)) (tl : Str) (mult : ℚ) :
    (scanLexicon lex tl mult).2 = (matchedPairs lex tl).map (fun p => p.1) := by
  have key : ∀ (l : List (Str × ℚ)) (a : ℚ) (ks : List Str),
      (l.foldl (fun acc p =>
        if hasSubstr p.1 tl then (acc.1 + p.2 * mult, acc.2 ++ [p.1]) else acc)
        (a, ks)).2
      = ks ++ (l.filter (fun p => hasSubstr p.1 tl)).map (fun p => p.1) := by
    intro l
    induction l with
    | nil => intro a ks; simp
    | cons p rest ih =>
      intro a ks
      by_cases hp : hasSubstr p.1 tl
      · simp [List.filter_cons, hp, ih]
      · simp [List.filter_cons, hp, ih]
  simpa [scanLexicon, matchedPairs] using key lex 0 []

theorem one_le_intensityMultiplier (tl : Str) : 1 ≤ intensityMultiplier tl := by
  have key : ∀ (l : List (Str × ℚ)) (m : ℚ),
      m ≤ l.foldl (fun m p => if hasSubstr p.1 tl then max m p.2 else m) m := by
    intro l
    induction l with
    | nil => intro m; simp
    | cons p rest ih =>
      intro m
      simp only [List.foldl_cons]
      by_cases hp : hasSubstr p.1 tl
      · simp only [hp, if_true]
        exact le_trans (le_max_left m p.2) (ih (max m p.2))
      · simp only [hp, if_false]
        exact ih m
  simpa [intensityMultiplier] using key INTENSITY_MARKERS 1

theorem positive_words_pos : ∀ p ∈ POSITIVE_WORDS, (0 : ℚ) < p.2 := by decide

theorem negative_words_pos : ∀ p ∈ NEGATIVE_WORDS, (0 : ℚ) < p.2 := by decide

theorem positiveTotal_nonneg (text : Str) : 0 ≤ positiveTotal text := by
  have hm : (0 : ℚ) ≤ intensityMultiplier (toLowerStr text) :=
    le_trans (by norm_num) (one_le_intensityMultiplier _)
  have h1 : 0 ≤ (scanLexicon POSITIVE_WORDS (toLowerStr text)
      (intensityMultiplier (toLowerStr text))).1 := by
    rw [scanLexicon_fst]
    apply List.sum_nonneg
    intro x hx
    obtain ⟨p, hp, rfl⟩ := List.mem_map.1 hx
    have hp' : p ∈ POSITIVE_WORDS := List.mem_of_mem_filter hp
    exact mul_nonneg (le_of_lt (positive_words_pos p hp')) hm
  have h2 : (0 : ℚ) ≤ (if upperFrac text > 0.3
      then 0.3 * intensityMultiplier (toLowerStr text) else 0) := by
    split
    · nlinarith [hm]
    · exact le_rfl
  have h3 : (0 : ℚ) ≤ 0.2 * (text.count '!' : ℚ) := by positivity
  exact add_nonneg (add_nonneg h1 h2) h3

theorem negativeTotal_nonneg (text : Str) : 0 ≤ negativeTotal text := by
  have hm : (0 : ℚ) ≤ intensityMultiplier (toLowerStr text) :=
    le_trans (by norm_num) (one_le_intensityMultiplier _)
  have h1 : 0 ≤ (scanLexicon NEGATIVE_WORDS (toLowerStr text)
      (intensityMultiplier (toLowerStr text))).1 := by
    rw [scanLexicon_fst]
    apply List.sum_nonneg
    intro x hx
    obtain ⟨p, hp, rfl⟩ := List.mem_map.1 hx
    have hp' : p ∈ NEGATIVE_WORDS := List.mem_of_mem_filter hp
    exact mul_nonneg (le_of_lt (negative_words_pos p hp')) hm
  have h2 : (0 : ℚ) ≤ (if upperFrac text > 0.3
      then 0.3 * intensityMultiplier (toLowerStr text) else 0) := by
    split
    · nlinarith [hm]
    · exact le_rfl
  have h3 : (0 : ℚ) ≤ 0.15 * (text.count '!' : ℚ) := by positivity
  exact add_nonneg (add_nonneg h1 h2) h3

/-! ## C1: the strength fusion formula -/

/-- C1.  For every paired RoleResult and EmotionResult, the classifier's
derived strength equals
`clamp(conf*0.5 + max(0.5, 1 - |emotionality - 0.3|)*0.3 + (0.5 + bonus)*0.2, 0, 1)`
with bonus 0.2 / -0.1 by the four COUNTER-vs-sentiment cases of the spec. -/
theorem claim1_strength_formula (cr : ClaimResult) (er : EmotionResult) :
    calculateArgumentStrength cr er = strengthSpec cr er := by
  simp only [calculateArgumentStrength, rawStrength, strengthSpec]
  split_ifs <;> first | rfl | tauto

/-! ## C9: range of the strength value; the clamp is never active -/

/-- C9.  For confidence and emotionality in `[0, 1]` the computed strength
lies in `[0.23, 0.94]`, and the final clamp to `[0, 1]` never changes the
value. -/
theorem claim9_strength_range (cr : ClaimResult) (er : EmotionResult)
    (hc0 : 0 ≤ cr.confidence) (hc1 : cr.confidence ≤ 1)
    (he0 : 0 ≤ er.emotionality) (he1 : er.emotionality ≤ 1) :
    23/100 ≤ calculateArgumentStrength cr er
      ∧ calculateArgumentStrength cr er ≤ 94/100
      ∧ calculateArgumentStrength cr er = rawStrength cr er := by
  have hfl : (0.5 : ℚ) ≤ max 0.5 (1 - |er.emotionality - 0.3|) := le_max_left _ _
  have hfu : max (0.5 : ℚ) (1 - |er.emotionality - 0.3|) ≤ 1 := by
    apply max_le
    · norm_num
    · have := abs_nonneg (er.emotionality - 0.3)
      linarith
  have hraw : 23/100 ≤ rawStrength cr er ∧ rawStrength cr er ≤ 94/100 := by
    simp only [rawStrength]
    split_ifs <;> constructor <;> nlinarith
  have hclamp : calculateArgumentStrength cr er = rawStrength cr er := by
    simp only [calculateArgumentStrength]
    rw [max_eq_right (by linarith [hraw.1]), min_eq_right (by linarith [hraw.2])]
  exact ⟨hclamp ▸ hraw.1, hclamp ▸ hraw.2, hclamp⟩

/-- Witness for C9 at a concrete input. -/
theorem claim9_witness :
    23/100 ≤ calculateArgumentStrength
        { sentence_text := [], confidence := 1/2, markers := [], claim_type := "CLAIM" }
        { sentence_text := [], sentiment := "neutral", sentiment_score := 0,
          emotionality := 3/10, emotion_keywords := [] }
      ∧ calculateArgumentStrength
        { sentence_text := [], confidence := 1/2, markers := [], claim_type := "CLAIM" }
        { sentence_text := [], sentiment := "neutral", sentiment_score := 0,
          emotionality := 3/10, emotion_keywords := [] } ≤ 94/100
      ∧ calculateArgumentStrength
        { sentence_text := [], confidence := 1/2, markers := [], claim_type := "CLAIM" }
        { sentence_text := [], sentiment := "neutral", sentiment_score := 0,
          emotionality := 3/10, emotion_keywords := [] } = rawStrength
        { sentence_text := [], confidence := 1/2, markers := [], claim_type := "CLAIM" }
        { sentence_text := [], sentiment := "neutral", sentiment_score := 0,
          emotionality := 3/10, emotion_keywords := [] } :=
  claim9_strength_range _ _ (by norm_num) (by norm_num) (by norm_num) (by norm_num)

/-! ## C6: sentiment score and label -/

theorem sentimentScore_eq (text : Str) :
    (analyzeSentenceEmotion text).sentiment_score
      = if positiveTotal text + negativeTotal text = 0 then 0
        else (positiveTotal text - negativeTotal text)
          / (positiveTotal text + negativeTotal text) := rfl

theorem sentimentLabel_eq (text : Str) :
    (analyzeSentenceEmotion text).sentiment
      = if (analyzeSentenceEmotion text).sentiment_score > 0.1 then "positive"
        else if (analyzeSentenceEmotion text).sentiment_score < -0.1 then "negative"
        else "neutral" := rfl

/-- C6.  The sentiment score is `0` when the positive and negative totals
are both `0` (no division by zero), otherwise `(p - n) / (p + n)`; it always
lies in `[-1, 1]`; and the label follows the `±0.1` thresholds. -/
theorem claim6_sentiment_score (text : Str) :
    ((positiveTotal text = 0 ∧ negativeTotal text = 0) →
        (analyzeSentenceEmotion text).sentiment_score = 0)
      ∧ (¬(positiveTotal text = 0 ∧ negativeTotal text = 0) →
        (analyzeSentenceEmotion text).sentiment_score
          = (positiveTotal text - negativeTotal text)
            / (positiveTotal text + negativeTotal text))
      ∧ -1 ≤ (analyzeSentenceEmotion text).sentiment_score
      ∧ (analyzeSentenceEmotion text).sentiment_score ≤ 1
      ∧ ((analyzeSentenceEmotion text).sentiment = "positive"
          ↔ 1/10 < (analyzeSentenceEmotion text).sentiment_score)
      ∧ ((analyzeSentenceEmotion text).sentiment = "negative"
          ↔ (analyzeSentenceEmotion text).sentiment_score < -(1/10))
      ∧ ((analyzeSentenceEmotion text).sentiment = "neutral"
          ↔ (-(1/10) ≤ (analyzeSentenceEmotion text).sentiment_score
              ∧ (analyzeSentenceEmotion text).sentiment_score ≤ 1/10)) := by
  have hp := positiveTotal_nonneg text
  have hn := negativeTotal_nonneg text
  set p := positiveTotal text with hpdef
  set n := negativeTotal text with hndef
  have hzero : p + n = 0 ↔ (p = 0 ∧ n = 0) := by
    constructor
    · intro h; constructor <;> linarith
    · intro h; rw [h.1, h.2]; norm_num
  have hbounds : -1 ≤ (analyzeSentenceEmotion text).sentiment_score
      ∧ (analyzeSentenceEmotion text).sentiment_score ≤ 1 := by
    rw [sentimentScore_eq]
    split_ifs with h
    · norm_num
    · have hpos : 0 < p + n := lt_of_le_of_ne (by linarith) (Ne.symm h)
      constructor
      · rw [le_div_iff₀ hpos]; linarith
      · rw [div_le_one hpos]; linarith
  refine ⟨?_, ?_, hbounds.1, hbounds.2, ?_, ?_, ?_⟩
  · intro h
    rw [sentimentScore_eq]
    simp [← hpdef, ← hndef, h.1, h.2]
  · intro h
    rw [sentimentScore_eq]
    rw [if_neg (fun hc => h (hzero.1 hc))]
  · rw [sentimentLabel_eq]
    split_ifs with h1 h2
    · simpa using by linarith [h1]
    · constructor
      · intro hc; exact absurd hc (by decide)
      · intro hc; exact absurd hc (by push_neg at h1; norm_num at h1 ⊢; linarith)
    · constructor
      · intro hc; exact absurd hc (by decide)
      · intro hc; exact absurd hc (by push_neg at h1; norm_num at h1 ⊢; linarith)
  · rw [sentimentLabel_eq]
    split_ifs with h1 h2
    · constructor
      · intro hc; exact absurd hc (by decide)
      · intro hc
        have : (0.1 : ℚ) < (analyzeSentenceEmotion text).sentiment_score := h1
        norm_num at this hc
        linarith
    · simpa using by norm_num at h2 ⊢; linarith [h2]
    · constructor
      · intro hc; exact absurd hc (by decide)
      · intro hc; exact absurd hc (by push_neg at h2; norm_num at h2 ⊢; linarith)
  · rw [sentimentLabel_eq]
    split_ifs with h1 h2
    · constructor
      · intro hc; exact absurd hc (by decide)
      · intro hc
        norm_num at h1
        linarith [hc.2]
    · constructor
      · intro hc; exact absurd hc (by decide)
      · intro hc
        norm_num at h2
        linarith [hc.1]
    · push_neg at h1 h2
      norm_num at h1 h2
      constructor
      · intro _; exact ⟨by linarith, by linarith⟩
      · intro _; rfl

/-- Witness for C6 at a concrete input (both totals zero on an empty
sentence, so the guarded branch applies). -/
theorem claim6_witness :
    (analyzeSentenceEmotion [] : EmotionResult).sentiment_score = 0 :=
  (claim6_sentiment_score []).1 (by constructor <;> decide)

/-! ## C10: fallback segmentation discards text without terminal punctuation -/

theorem findallSentences_no_terminal (text : Str)
    (h : ∀ c ∈ text, isTerminal c = false) :
    ∀ acc, findallSentences acc text = [] := by
  induction text with
  | nil => intro acc; rfl
  | cons c rest ih =>
    intro acc
    have hc : isTerminal c = false := h c (List.mem_cons_self c rest)
    simp only [findallSentences, hc, Bool.false_eq_true, if_false]
    exact ih (fun x hx => h x (List.mem_cons_of_mem c hx)) _

/-- C10.  In fallback mode, a non-empty input containing none of `.`, `!`,
`?` yields the empty sentence list (the trailing text is discarded), not a
single sentence. -/
theorem claim10_no_terminal_empty (text : Str) (hne : text ≠ [])
    (h : ∀ c ∈ text, isTerminal c = false) :
    processWithFallback text = [] := by
  unfold processWithFallback
  rw [findallSentences_no_terminal text h []]
  rfl

/-- Witness for C10 at a concrete input. -/
theorem claim10_witness : processWithFallback "hello".data = [] :=
  claim10_no_terminal_empty "hello".data (by decide) (by decide)

/-! ## C3: occurrences of one lexicon word are counted once, not k times -/

/-- Counterexample to C3 as stated.  In the sentence `"good good"` the
positive word "good" (weight 0.7) occurs twice and the intensity multiplier
is 1, so the claimed per-occurrence accumulation would contribute
`2 × 0.7 = 1.4`; the code's positive total is `0.7`. -/
theorem claim3_counterexample :
    occurrences "good".data (toLowerStr "good good".data) = 2
      ∧ ("good".data, (0.7 : ℚ)) ∈ POSITIVE_WORDS
      ∧ intensityMultiplier (toLowerStr "good good".data) = 1
      ∧ positiveTotal "good good".data = 0.7
      ∧ positiveTotal "good good".data ≠ 2 * (0.7 * 1) := by
  refine ⟨by decide, by decide, by decide, by decide, by decide⟩

/-- C3 (amended).  Each positive- or negative-lexicon word present as a
substring of the lower-cased text contributes its
`lexicon_weight × intensity_multiplier` to the corresponding total exactly
once, regardless of how many times it occurs (the totals are the sums over
the distinct matched lexicon entries), and every matched word is recorded
as a keyword. -/
theorem claim3_amended (text : Str) :
    (positiveTotal text
        = ((matchedPairs POSITIVE_WORDS (toLowerStr text)).map
            (fun p => p.2 * intensityMultiplier (toLowerStr text))).sum
          + (if upperFrac text > 0.3
              then 0.3 * intensityMultiplier (toLowerStr text) else 0)
          + 0.2 * (text.count '!' : ℚ))
      ∧ (negativeTotal text
        = ((matchedPairs NEGATIVE_WORDS (toLowerStr text)).map
            (fun p => p.2 * intensityMultiplier (toLowerStr text))).sum
          + (if upperFrac text > 0.3
              then 0.3 * intensityMultiplier (toLowerStr text) else 0)
          + 0.15 * (text.count '!' : ℚ))
      ∧ (∀ p ∈ POSITIVE_WORDS ++ NEGATIVE_WORDS,
          hasSubstr p.1 (toLowerStr text) = true →
            p.1 ∈ (analyzeSentenceEmotion text).emotion_keywords) := by
  have hmemdedup : ∀ (l : List Str) (x : Str), x ∈ l → x ∈ dedupFirst l := by
    have key : ∀ (l acc : List Str) (x : Str), x ∈ acc ∨ x ∈ l →
        x ∈ l.foldl (fun acc x => if x ∈ acc then acc else acc ++ [x]) acc := by
      intro l
      induction l with
      | nil => intro acc x hx; simpa using hx.resolve_right (by simp)
      | cons a rest ih =>
        intro acc x hx
        simp only [List.foldl_cons]
        apply ih
        by_cases ha : a ∈ acc
        · simp only [ha, if_true]
          rcases hx with hx | hx
          · exact Or.inl hx
          · rcases List.mem_cons.1 hx with rfl | hx
            · exact Or.inl ha
            · exact Or.inr hx
        · simp only [ha, if_false]
          rcases hx with hx | hx
          · exact Or.inl (List.mem_append_left _ hx)
          · rcases List.mem_cons.1 hx with rfl | hx
            · exact Or.inl (List.mem_append_right _ (List.mem_singleton.2 rfl))
            · exact Or.inr hx
    intro l x hx
    exact key l [] x (Or.inr hx)
  refine ⟨?_, ?_, ?_⟩
  · show (scanLexicon POSITIVE_WORDS (toLowerStr text)
        (intensityMultiplier (toLowerStr text))).1 + _ + _ = _
    rw [scanLexicon_fst]
  · show (scanLexicon NEGATIVE_WORDS (toLowerStr text)
        (intensityMultiplier (toLowerStr text))).1 + _ + _ = _
    rw [scanLexicon_fst]
  · intro p hp hmatch
    apply hmemdedup
    have hkey : p.1 ∈ (scanLexicon POSITIVE_WORDS (toLowerStr text)
          (intensityMultiplier (toLowerStr text))).2
        ++ (scanLexicon NEGATIVE_WORDS (toLowerStr text)
          (intensityMultiplier (toLowerStr text))).2 := by
      rw [scanLexicon_snd, scanLexicon_snd]
      rcases List.mem_append.1 hp with hp' | hp'
      · exact List.mem_append_left _
          (List.mem_map.2 ⟨p, List.mem_filter.2 ⟨hp', hmatch⟩, rfl⟩)
      · exact List.mem_append_right _
          (List.mem_map.2 ⟨p, List.mem_filter.2 ⟨hp', hmatch⟩, rfl⟩)
    exact List.mem_append_left _ (List.mem_append_left _ hkey)

/-- Witness for C3 (amended) at a concrete input. -/
theorem claim3_amended_witness :
    "good".data ∈ (analyzeSentenceEmotion "good good".data).emotion_keywords :=
  (claim3_amended "good good".data).2.2 ("good".data, (0.7 : ℚ)) (by decide) (by decide)

/-! ## C4: behaviour of the structure builder without claims and supports -/

theorem mkNodes_length : ∀ (i : Nat) (cls : List ArgumentClassification),
    (mkNodes i cls).length = cls.length := by
  intro i cls
  induction cls generalizing i with
  | nil => rfl
  | cons c rest ih => simp [mkNodes, ih]

theorem mkNodes_mem : ∀ (i : Nat) (cls : List ArgumentClassification),
    ∀ n ∈ mkNodes i cls,
      (∃ c ∈ cls, n.arg_type = c.argument_type) ∧ n.childIds = [] := by
  intro i cls
  induction cls generalizing i with
  | nil => intro n hn; simp [mkNodes] at hn
  | cons c rest ih =>
    intro n hn
    rcases List.mem_cons.1 hn with rfl | hn
    · exact ⟨⟨c, List.mem_cons_self c rest, rfl⟩, rfl⟩
    · obtain ⟨⟨c', hc', hty⟩, hch⟩ := ih (i + 1) n hn
      exact ⟨⟨c', List.mem_cons_of_mem c hc', hty⟩, hch⟩

/-- Counterexample to C4 as stated.  A classification list holding one
COUNTER node has no CLAIM and no SUPPORT, the built root list is empty, but
the derived statistics do not all report zero: the node and counter counts
are 1 and the mean strength is the counter's strength. -/
theorem claim4_counterexample :
    (∀ c ∈ [counterOnlyClassification],
        c.argument_type ≠ "CLAIM" ∧ c.argument_type ≠ "SUPPORT")
      ∧ (buildStructure [counterOnlyClassification]).root_claims = []
      ∧ (getTreeStats (buildStructure [counterOnlyClassification])).total_nodes = 1
      ∧ (getTreeStats (buildStructure [counterOnlyClassification])).total_counters = 1
      ∧ (getTreeStats (buildStructure [counterOnlyClassification])).avg_strength = 3/5
      ∧ ¬ (getTreeStats (buildStructure [counterOnlyClassification])).total_nodes = 0 := by
  refine ⟨by decide, by decide, by decide, by decide, by decide, by decide⟩

/-- C4 (amended).  For every classification list without CLAIM and without
SUPPORT entries, `build_structure` returns an empty root list and no error;
the statistics report zero claim and support counts, zero depth and zero
root claims, while the total node count is the input length (and the
remaining statistics are zero exactly when the input itself is empty). -/
theorem claim4_no_claims_no_supports (cls : List ArgumentClassification)
    (hC : ∀ c ∈ cls, c.argument_type ≠ "CLAIM")
    (hS : ∀ c ∈ cls, c.argument_type ≠ "SUPPORT") :
    (buildStructure cls).root_claims = []
      ∧ (getTreeStats (buildStructure cls)).total_claims = 0
      ∧ (getTreeStats (buildStructure cls)).total_supports = 0
      ∧ (getTreeStats (buildStructure cls)).max_depth = 0
      ∧ (getTreeStats (buildStructure cls)).num_root_claims = 0
      ∧ (getTreeStats (buildStructure cls)).total_nodes = cls.length
      ∧ (cls = [] → getTreeStats (buildStructure cls)
          = ⟨0, 0, 0, 0, 0, 0, 0⟩) := by
  have hfc : (mkNodes 0 cls).filter (fun n => n.arg_type = "CLAIM") = [] := by
    rw [List.filter_eq_nil_iff]
    intro n hn
    obtain ⟨⟨c, hc, hty⟩, _⟩ := mkNodes_mem 0 cls n hn
    simp only [decide_eq_true_eq]
    rw [hty]
    exact hC c hc
  have hfs : (mkNodes 0 cls).filter (fun n => n.arg_type = "SUPPORT") = [] := by
    rw [List.filter_eq_nil_iff]
    intro n hn
    obtain ⟨⟨c, hc, hty⟩, _⟩ := mkNodes_mem 0 cls n hn
    simp only [decide_eq_true_eq]
    rw [hty]
    exact hS c hc
  have hbuild : buildStructure cls = { nodes := mkNodes 0 cls, root_claims := [] } := by
    unfold buildStructure
    simp only [hfc, hfs]
    simp
  rw [hbuild]
  have hcc : (mkNodes 0 cls).countP (fun n => n.arg_type = "CLAIM") = 0 := by
    rw [List.countP_eq_zero]
    intro n hn
    obtain ⟨⟨c, hc, hty⟩, _⟩ := mkNodes_mem 0 cls n hn
    simp only [decide_eq_true_eq]
    rw [hty]
    exact hC c hc
  have hcs : (mkNodes 0 cls).countP (fun n => n.arg_type = "SUPPORT") = 0 := by
    rw [List.countP_eq_zero]
    intro n hn
    obtain ⟨⟨c, hc, hty⟩, _⟩ := mkNodes_mem 0 cls n hn
    simp only [decide_eq_true_eq]
    rw [hty]
    exact hS c hc
  refine ⟨rfl, ?_, ?_, rfl, rfl, ?_, ?_⟩
  · simpa [getTreeStats] using hcc
  · simpa [getTreeStats] using hcs
  · simpa [getTreeStats] using mkNodes_length 0 cls
  · intro hnil
    subst hnil
    rfl

/-- Witness for C4 (amended) at a concrete input. -/
theorem claim4_witness :
    (buildStructure [counterOnlyClassification]).root_claims = []
      ∧ (getTreeStats (buildStructure [counterOnlyClassification])).total_claims = 0
      ∧ (getTreeStats (buildStructure [counterOnlyClassification])).total_supports = 0
      ∧ (getTreeStats (buildStructure [counterOnlyClassification])).max_depth = 0
      ∧ (getTreeStats (buildStructure [counterOnlyClassification])).num_root_claims = 0
      ∧ (getTreeStats (buildStructure [counterOnlyClassification])).total_nodes
          = [counterOnlyClassification].length
      ∧ ([counterOnlyClassification] = ([] : List ArgumentClassification) →
          getTreeStats (buildStructure [counterOnlyClassification])
            = ⟨0, 0, 0, 0, 0, 0, 0⟩) :=
  claim4_no_claims_no_supports [counterOnlyClassification]
    (by decide) (by decide)

/-! ## C5: every attached child has a strictly greater id than its parent -/

theorem claim5_child_id_greater (cls : List ArgumentClassification) :
    (∀ n ∈ (buildStructure cls).nodes, ∀ cid ∈ n.childIds, n.id < cid)
      ∧ (∀ r ∈ (buildStructure cls).root_claims, ∀ cid ∈ r.childIds, r.id < cid) := by
  have haddch : ∀ (S C : List ArgumentNode) (m : ArgumentNode),
      ∀ cid ∈ ((S.filter (fun s => m.id < s.id)).map (fun s => s.id))
          ++ ((C.filter (fun c => m.id < c.id)).map (fun c => c.id)),
        m.id < cid := by
    intro S C m cid hcid
    rcases List.mem_append.1 hcid with hc | hc
    · obtain ⟨s, hs, rfl⟩ := List.mem_map.1 hc
      exact of_decide_eq_true (List.mem_filter.1 hs).2
    · obtain ⟨c, hcf, rfl⟩ := List.mem_map.1 hc
      exact of_decide_eq_true (List.mem_filter.1 hcf).2
  constructor
  · intro n hn cid hcid
    simp only [buildStructure, List.mem_map] at hn
    obtain ⟨m, hm, rfl⟩ := hn
    split at hcid
    · rename_i hin
      rw [if_pos hin]
      exact haddch _ _ m cid hcid
    · rename_i hin
      rw [if_neg hin]
      have := (mkNodes_mem 0 cls m hm).2
      rw [this] at hcid
      simp at hcid
  · intro r hr cid hcid
    simp only [buildStructure, List.mem_map] at hr
    obtain ⟨m, hm, rfl⟩ := hr
    exact haddch _ _ m cid hcid

/-- Witness for C5 at a concrete input: a CLAIM sentence followed by a
SUPPORT sentence; the root's single child id 1 exceeds the root id 0. -/
theorem claim5_witness : (0 : Nat) < 1 :=
  (claim5_child_id_greater
      [{ sentence_text := "c".data, argument_type := "CLAIM", confidence := 1/2,
         sentiment := "neutral", emotionality := 0, keywords := [], strength := 1/2 },
       { sentence_text := "s".data, argument_type := "SUPPORT", confidence := 1/2,
         sentiment := "neutral", emotionality := 0, keywords := [], strength := 1/2 }]).2
    { id := 0, text := "c".data, arg_type := "CLAIM", strength := 1/2,
      emotionality := 0, childIds := [1] }
    (by decide) 1 (by decide)

/-! ## C7: the weakness-detection rule cascade -/

/-- C7.  The weakness detector evaluates its six rules in the fixed order,
appends the findings in that order suppressing duplicate names (which only
connects the two Hasty Generalization rules), and returns exactly the
sentinel finding "None" if and only if no rule fires. -/
theorem claim7_weakness_rules (c : ArgumentClassification) :
    detectLogicalWeaknesses c
      = weaknessSpec (weaknessCond1 c) (weaknessCond2 c) (weaknessCond3 c)
          (weaknessCond4 c) (weaknessCond5 c) (weaknessCond6 c)
      ∧ (detectLogicalWeaknesses c = [noneFinding]
          ↔ weaknessCond1 c = false ∧ weaknessCond2 c = false
            ∧ weaknessCond3 c = false ∧ weaknessCond4 c = false
            ∧ weaknessCond5 c = false ∧ weaknessCond6 c = false) := by
  have key : ∀ b1 b2 b3 b4 b5 b6 : Bool,
      weaknessCore b1 b2 b3 b4 b5 b6 = weaknessSpec b1 b2 b3 b4 b5 b6
        ∧ (weaknessCore b1 b2 b3 b4 b5 b6 = [noneFinding]
            ↔ b1 = false ∧ b2 = false ∧ b3 = false ∧ b4 = false
              ∧ b5 = false ∧ b6 = false) := by decide
  simp only [detectLogicalWeaknesses]
  exact key _ _ _ _ _ _

/-! ## C8: the education example sentence -/

set_option maxRecDepth 8000 in
/-- C8.  For the input
`"We should invest in education because it benefits society."` the pipeline
produces exactly one sentence, its classification is SUPPORT (although the
modal verb "should" also matches the CLAIM lexicon), and the detected
markers include "because". -/
theorem claim8_education_example :
    (processWithFallback
        "We should invest in education because it benefits society.".data).length = 1
      ∧ (classifyArguments (processWithFallback
          "We should invest in education because it benefits society.".data)).map
          (fun c => c.argument_type) = ["SUPPORT"]
      ∧ "because".data ∈ ((detectClaims (processWithFallback
          "We should invest in education because it benefits society.".data)).map
          (fun r => r.markers)).flatten := by decide

/-! ## C2: the role detector is the highest-mean lexicon selection -/

theorem lexMean_empty (lex : List (Str × ℚ)) (tl : Str)
    (h : matchedPairs lex tl = []) : lexMean lex tl = 0 := by
  simp [lexMean, h]

theorem claimLexicon_pos : ∀ p ∈ claimLexicon, (0 : ℚ) < p.2 := by decide

theorem support_markers_pos : ∀ p ∈ SUPPORT_MARKERS, (0 : ℚ) < p.2 := by decide

theorem counter_markers_pos : ∀ p ∈ COUNTER_MARKERS, (0 : ℚ) < p.2 := by decide

theorem lexMean_cons (lex : List (Str × ℚ)) (tl : Str) (a : Str × ℚ)
    (as : List (Str × ℚ)) (h : matchedPairs lex tl = a :: as) :
    lexMean lex tl
      = (a.2 :: as.map (fun p => p.2)).sum / ((as.length + 1 : Nat) : ℚ) := by
  simp [lexMean, h]

theorem lexMean_cons_pos (lex : List (Str × ℚ)) (tl : Str) (a : Str × ℚ)
    (as : List (Str × ℚ)) (hw : ∀ p ∈ lex, (0 : ℚ) < p.2)
    (h : matchedPairs lex tl = a :: as) :
    (0 : ℚ) < (a.2 :: as.map (fun p => p.2)).sum / ((as.length + 1 : Nat) : ℚ) := by
  apply div_pos
  · have hmem : ∀ x ∈ a :: as, x ∈ lex := by
      intro x hx
      exact List.mem_of_mem_filter (h ▸ hx)
    have h2 : (a.2 :: as.map (fun p => p.2)) = (a :: as).map (fun p => p.2) := by simp
    rw [h2]
    apply List.sum_pos
    · intro x hx
      obtain ⟨p, hp, rfl⟩ := List.mem_map.1 hx
      exact hw p (hmem p hp)
    · simp
  · exact_mod_cast Nat.succ_pos _

set_option maxRecDepth 4000 in
set_option maxHeartbeats 1600000 in
/-- C2.  The role detector matches each lexicon's phrases by substring
containment against the lower-cased text, labels the sentence with the
lexicon of highest mean matched weight (0 without matches; ties favour the
enumeration order CLAIM, SUPPORT, COUNTER), emits that mean as the
confidence and the matched phrases of the winning lexicon as markers, and
falls back to NEUTRAL with confidence 0 and no markers when nothing
matches. -/
theorem claim2_role_detector (text : Str) :
    analyzeSentenceClaim text = analyzeSentenceClaimSpec text := by
  unfold analyzeSentenceClaim analyzeSentenceClaimSpec
  rcases hC : matchedPairs claimLexicon (toLowerStr text) with _ | ⟨a, as⟩ <;>
    rcases hS : matchedPairs SUPPORT_MARKERS (toLowerStr text) with _ | ⟨b, bs⟩ <;>
      rcases hCo : matchedPairs COUNTER_MARKERS (toLowerStr text) with _ | ⟨c, cs⟩
  · simp only [hC, hS, hCo, lexMean_empty _ _ hC, lexMean_empty _ _ hS, lexMean_empty _ _ hCo, List.map_cons, List.map_nil, List.foldl_cons, List.foldl_nil, List.length_map, List.length_cons, List.length_nil, List.sum_cons, List.sum_nil, List.length_singleton, add_zero, zero_add, Nat.cast_one, div_one, Nat.zero_add, eq_self_iff_true, true_and, and_true, false_and, and_false, if_true, if_false, List.cons_ne_nil, not_true, not_false_iff]
    clear hC hS hCo
    split_ifs <;> first | rfl | (exfalso; linarith) | simp_all
  · simp only [hC, hS, hCo, lexMean_empty _ _ hC, lexMean_empty _ _ hS, lexMean_cons _ _ _ _ hCo, List.map_cons, List.map_nil, List.foldl_cons, List.foldl_nil, List.length_map, List.length_cons, List.length_nil, List.sum_cons, List.sum_nil, List.length_singleton, add_zero, zero_add, Nat.cast_one, div_one, Nat.zero_add, eq_self_iff_true, true_and, and_true, false_and, and_false, if_true, if_false, List.cons_ne_nil, not_true, not_false_iff]
    have hmCo := lexMean_cons_pos _ _ _ _ counter_markers_pos hCo
    clear hC hS hCo
    set mCo := (c.2 :: List.map (fun p => p.2) cs).sum / ((cs.length + 1 : Nat) : ℚ) with hmCo_def
    set kCo := c.1 :: List.map (fun p => p.1) cs with hkCo_def
    split_ifs <;> first | rfl | (exfalso; linarith) | simp_all
  · simp only [hC, hS, hCo, lexMean_empty _ _ hC, lexMean_cons _ _ _ _ hS, lexMean_empty _ _ hCo, List.map_cons, List.map_nil, List.foldl_cons, List.foldl_nil, List.length_map, List.length_cons, List.length_nil, List.sum_cons, List.sum_nil, List.length_singleton, add_zero, zero_add, Nat.cast_one, div_one, Nat.zero_add, eq_self_iff_true, true_and, and_true, false_and, and_false, if_true, if_false, List.cons_ne_nil, not_true, not_false_iff]
    have hmS := lexMean_cons_pos _ _ _ _ support_markers_pos hS
    clear hC hS hCo
    set mS := (b.2 :: List.map (fun p => p.2) bs).sum / ((bs.length + 1 : Nat) : ℚ) with hmS_def
    set kS := b.1 :: List.map (fun p => p.1) bs with hkS_def
    split_ifs <;> first | rfl | (exfalso; linarith) | simp_all
  · simp only [hC, hS, hCo, lexMean_empty _ _ hC, lexMean_cons _ _ _ _ hS, lexMean_cons _ _ _ _ hCo, List.map_cons, List.map_nil, List.foldl_cons, List.foldl_nil, List.length_map, List.length_cons, List.length_nil, List.sum_cons, List.sum_nil, List.length_singleton, add_zero, zero_add, Nat.cast_one, div_one, Nat.zero_add, eq_self_iff_true, true_and, and_true, false_and, and_false, if_true, if_false, List.cons_ne_nil, not_true, not_false_iff]
    have hmS := lexMean_cons_pos _ _ _ _ support_markers_pos hS
    have hmCo := lexMean_cons_pos _ _ _ _ counter_markers_pos hCo
    clear hC hS hCo
    set mS := (b.2 :: List.map (fun p => p.2) bs).sum / ((bs.length + 1 : Nat) : ℚ) with hmS_def
    set kS := b.1 :: List.map (fun p => p.1) bs with hkS_def
    set mCo := (c.2 :: List.map (fun p => p.2) cs).sum / ((cs.length + 1 : Nat) : ℚ) with hmCo_def
    set kCo := c.1 :: List.map (fun p => p.1) cs with hkCo_def
    split_ifs <;> first | rfl | (exfalso; linarith) | simp_all
  · simp only [hC, hS, hCo, lexMean_cons _ _ _ _ hC, lexMean_empty _ _ hS, lexMean_empty _ _ hCo, List.map_cons, List.map_nil, List.foldl_cons, List.foldl_nil, List.length_map, List.length_cons, List.length_nil, List.sum_cons, List.sum_nil, List.length_singleton, add_zero, zero_add, Nat.cast_one, div_one, Nat.zero_add, eq_self_iff_true, true_and, and_true, false_and, and_false, if_true, if_false, List.cons_ne_nil, not_true, not_false_iff]
    have hmC := lexMean_cons_pos _ _ _ _ claimLexicon_pos hC
    clear hC hS hCo
    set mC := (a.2 :: List.map (fun p => p.2) as).sum / ((as.length + 1 : Nat) : ℚ) with hmC_def
    set kC := a.1 :: List.map (fun p => p.1) as with hkC_def
    split_ifs <;> first | rfl | (exfalso; linarith) | simp_all
  · simp only [hC, hS, hCo, lexMean_cons _ _ _ _ hC, lexMean_empty _ _ hS, lexMean_cons _ _ _ _ hCo, List.map_cons, List.map_nil, List.foldl_cons, List.foldl_nil, List.length_map, List.length_cons, List.length_nil, List.sum_cons, List.sum_nil, List.length_singleton, add_zero, zero_add, Nat.cast_one, div_one, Nat.zero_add, eq_self_iff_true, true_and, and_true, false_and, and_false, if_true, if_false, List.cons_ne_nil, not_true, not_false_iff]
    have hmC := lexMean_cons_pos _ _ _ _ claimLexicon_pos hC
    have hmCo := lexMean_cons_pos _ _ _ _ counter_markers_pos hCo
    clear hC hS hCo
    set mC := (a.2 :: List.map (fun p => p.2) as).sum / ((as.length + 1 : Nat) : ℚ) with hmC_def
    set kC := a.1 :: List.map (fun p => p.1) as with hkC_def
    set mCo := (c.2 :: List.map (fun p => p.2) cs).sum / ((cs.length + 1 : Nat) : ℚ) with hmCo_def
    set kCo := c.1 :: List.map (fun p => p.1) cs with hkCo_def
    split_ifs <;> first | rfl | (exfalso; linarith) | simp_all
  · simp only [hC, hS, hCo, lexMean_cons _ _ _ _ hC, lexMean_cons _ _ _ _ hS, lexMean_empty _ _ hCo, List.map_cons, List.map_nil, List.foldl_cons, List.foldl_nil, List.length_map, List.length_cons, List.length_nil, List.sum_cons, List.sum_nil, List.length_singleton, add_zero, zero_add, Nat.cast_one, div_one, Nat.zero_add, eq_self_iff_true, true_and, and_true, false_and, and_false, if_true, if_false, List.cons_ne_nil, not_true, not_false_iff]
    have hmC := lexMean_cons_pos _ _ _ _ claimLexicon_pos hC
    have hmS := lexMean_cons_pos _ _ _ _ support_markers_pos hS
    clear hC hS hCo
    set mC := (a.2 :: List.map (fun p => p.2) as).sum / ((as.length + 1 : Nat) : ℚ) with hmC_def
    set kC := a.1 :: List.map (fun p => p.1) as with hkC_def
    set mS := (b.2 :: List.map (fun p => p.2) bs).sum / ((bs.length + 1 : Nat) : ℚ) with hmS_def
    set kS := b.1 :: List.map (fun p => p.1) bs with hkS_def
    split_ifs <;> first | rfl | (exfalso; linarith) | simp_all
  · simp only [hC, hS, hCo, lexMean_cons _ _ _ _ hC, lexMean_cons _ _ _ _ hS, lexMean_cons _ _ _ _ hCo, List.map_cons, List.map_nil, List.foldl_cons, List.foldl_nil, List.length_map, List.length_cons, List.length_nil, List.sum_cons, List.sum_nil, List.length_singleton, add_zero, zero_add, Nat.cast_one, div_one, Nat.zero_add, eq_self_iff_true, true_and, and_true, false_and, and_false, if_true, if_false, List.cons_ne_nil, not_true, not_false_iff]
    have hmC := lexMean_cons_pos _ _ _ _ claimLexicon_pos hC
    have hmS := lexMean_cons_pos _ _ _ _ support_markers_pos hS
    have hmCo := lexMean_cons_pos _ _ _ _ counter_markers_pos hCo
    clear hC hS hCo
    set mC := (a.2 :: List.map (fun p => p.2) as).sum / ((as.length + 1 : Nat) : ℚ) with hmC_def
    set kC := a.1 :: List.map (fun p => p.1) as with hkC_def
    set mS := (b.2 :: List.map (fun p => p.2) bs).sum / ((bs.length + 1 : Nat) : ℚ) with hmS_def
    set kS := b.1 :: List.map (fun p => p.1) bs with hkS_def
    set mCo := (c.2 :: List.map (fun p => p.2) cs).sum / ((cs.length + 1 : Nat) : ℚ) with hmCo_def
    set kCo := c.1 :: List.map (fun p => p.1) cs with hkCo_def
    split_ifs <;> first | rfl | (exfalso; linarith) | simp_all


end ArgAnalyzer
